import Mathlib

/-
  Shallow embedding of the multi-agent stock-analysis orchestration engine of
  the TheAgents repository (src/stock-ai-service), covering:

  - agents/state.py         : the data model (requests, per-agent analyses,
                              the workflow state threaded through the pipeline)
  - agents/stock_agents.py  : the five specialist stages and the LLM response
                              parser BaseStockAgent._parse_response
  - agents/orchestrator.py  : the sequential LangGraph pipeline
                              (StockAnalysisOrchestrator), analyze_stock and
                              _create_portfolio_result
  - services/portfolio_service.py : PortfolioService.validate_portfolio_allocation
  - main.py                 : the streaming endpoints (generate_sse_stream,
                              stream_portfolio_analysis, the in-memory
                              streaming-session store) and the allocation check
                              of analyze_portfolio_stream_init

  External effects (yfinance fetches, LLM completions, wall-clock time,
  database writes) are modelled by explicit oracle parameters: each stage's
  interaction with the outside world is summarised by an outcome value saying
  whether the stage's body raised before writing its slot, and otherwise which
  analysis text / confidence / key factors / measured duration the parsed LLM
  response produced.  Python floats are modelled as rationals, Python dicts
  with a fixed key set as structures, and dicts with dynamic keys as
  association lists preserving insertion order.
-/

/-- agents/state.py `StockAnalysisRequest` (pydantic model). -/
structure StockAnalysisRequest where
  symbol : String
  time_frequency : String
  user_context : Option String
deriving Repr

/-- agents/state.py `AgentAnalysis` (pydantic model). -/
structure AgentAnalysis where
  agent_type : String
  agent_name : String
  analysis : String
  confidence : ℚ
  key_factors : List String
  processing_time_ms : ℕ
deriving Repr

/-- A model of Python JSON values, as returned by `json.loads` and stored in
the loosely-typed `prediction` payload (`Dict[str, Any]`). -/
inductive JsonVal where
  | jnull : JsonVal
  | jbool (b : Bool) : JsonVal
  | jnum (q : ℚ) : JsonVal
  | jstr (s : String) : JsonVal
  | jarr (xs : List JsonVal) : JsonVal
  | jobj (fields : List (String × JsonVal)) : JsonVal

/-- agents/state.py `StockAnalysisResult` (pydantic model).  `agent_analyses`
is a Python dict from agent-type name to analysis text; it is modelled as an
association list in insertion order. -/
structure StockAnalysisResult where
  symbol : String
  prediction : JsonVal
  agent_analyses : List (String × String)
  confidence_score : ℚ
  factors_considered : List String

/-- agents/state.py `StockAnalysisState` (the TypedDict threaded through the
LangGraph workflow).  Absence of a value in an optional key is `none`. -/
structure StockAnalysisState where
  request : StockAnalysisRequest
  finance_analysis : Option AgentAnalysis
  geopolitics_analysis : Option AgentAnalysis
  legal_analysis : Option AgentAnalysis
  quant_analysis : Option AgentAnalysis
  final_analysis : Option AgentAnalysis
  current_step : String
  errors : List String
  warnings : List String
  analysis_result : Option StockAnalysisResult
  workflow_id : String
  started_at : String
  completed_at : Option String

/-- The four specialist (non-consolidator) stages of agents/stock_agents.py,
in pipeline order: FinanceGuruAgent, GeopoliticsGuruAgent, LegalGuruAgent,
QuantDevAgent. -/
inductive GuruKind where
  | finance : GuruKind
  | geopolitics : GuruKind
  | legal : GuruKind
  | quant : GuruKind
deriving DecidableEq, Repr

/-- The `agent_type` string fixed in each agent's constructor. -/
def GuruKind.agentType : GuruKind → String
  | .finance => "finance_guru"
  | .geopolitics => "geopolitics_guru"
  | .legal => "legal_guru"
  | .quant => "quant_dev"

/-- The `agent_name` string fixed in each agent's constructor. -/
def GuruKind.agentName : GuruKind → String
  | .finance => "Finance Guru"
  | .geopolitics => "Geopolitics Guru"
  | .legal => "Legal Guru"
  | .quant => "Quant Dev"

/-- The `current_step` label each agent writes on success
(`state['current_step'] = '..._complete'`). -/
def GuruKind.stepLabel : GuruKind → String
  | .finance => "finance_complete"
  | .geopolitics => "geopolitics_complete"
  | .legal => "legal_complete"
  | .quant => "quant_complete"

/-- The prefix of the error string each agent appends on an exception
(`state['errors'].append(f"... analysis failed: {str(e)}")`). -/
def GuruKind.failLabel : GuruKind → String
  | .finance => "Finance analysis failed: "
  | .geopolitics => "Geopolitics analysis failed: "
  | .legal => "Legal analysis failed: "
  | .quant => "Quant analysis failed: "

/-- Oracle describing one specialist stage's interaction with the external
world (yfinance fetch, LLM call, response parse, wall clock).
`fail msg` models any exception raised inside the stage's `try` body before
the slot assignment — a network failure, LLM-service failure, or a missing
`analysis` / `confidence` / `key_factors` key in the parsed response dict —
with `msg` the Python `str(e)`.  `success a c kf d` models a stage whose
parsed response yielded analysis text `a`, confidence `c`, key factors `kf`,
and whose measured wall-clock duration was `d` milliseconds. -/
inductive StageOutcome where
  | fail (msg : String) : StageOutcome
  | success (analysis : String) (confidence : ℚ) (key_factors : List String)
      (duration_ms : ℕ) : StageOutcome

/-- Oracle for the consolidator stage (FinancialAnalystAgent.analyze).  Its
body has one additional observable intermediate point: the parsed response's
`analysis` / `confidence` / `key_factors` keys are read when
`state['final_analysis']` is assigned, but `analysis_data['prediction']` is
only read afterwards, while building `StockAnalysisResult`.
`noPrediction a c kf d` models the case where the parsed dict has the three
analysis keys but no `prediction` key — which in the source is certain
whenever `_parse_response` fell back to free text, since the fallback dict is
`{"analysis": ..., "confidence": 0.5, "key_factors": [...]}` — so a
`KeyError('prediction')` is raised after the `final_analysis` slot was
already written. -/
inductive AnalystOutcome where
  | fail (msg : String) : AnalystOutcome
  | noPrediction (analysis : String) (confidence : ℚ) (key_factors : List String)
      (duration_ms : ℕ) : AnalystOutcome
  | success (analysis : String) (confidence : ℚ) (key_factors : List String)
      (duration_ms : ℕ) (prediction : JsonVal) : AnalystOutcome

/-- The oracle for a whole run: one outcome per stage, whether the LangGraph
invocation itself raised (orchestrator.py, `except` branch of analyze_stock),
and the wall-clock timestamp rendered by
`datetime.now(timezone.utc).isoformat()` at the completion sites. -/
structure Env where
  finance : StageOutcome
  geopolitics : StageOutcome
  legal : StageOutcome
  quant : StageOutcome
  analyst : AnalystOutcome
  graphFail : Option String
  now : String

/-- Slot projection of the state, by stage kind. -/
def StockAnalysisState.slot (s : StockAnalysisState) : GuruKind → Option AgentAnalysis
  | .finance => s.finance_analysis
  | .geopolitics => s.geopolitics_analysis
  | .legal => s.legal_analysis
  | .quant => s.quant_analysis

/-- Slot update of the state, by stage kind (each agent writes only its own
reserved key: `state['finance_analysis'] = ...` etc.). -/
def StockAnalysisState.setSlot (s : StockAnalysisState) (g : GuruKind)
    (a : AgentAnalysis) : StockAnalysisState :=
  match g with
  | .finance => { s with finance_analysis := some a }
  | .geopolitics => { s with geopolitics_analysis := some a }
  | .legal => { s with legal_analysis := some a }
  | .quant => { s with quant_analysis := some a }

/-- One specialist stage's `analyze(state)` method (agents/stock_agents.py).
On success the stage writes exactly one `AgentAnalysis` into its reserved
slot and sets `current_step`; on an exception it appends a single
descriptive string to `state['errors']` and touches nothing else.  The four
agent classes are textually parallel, so they are embedded once, indexed by
`GuruKind`. -/
def guruAnalyze (g : GuruKind) (o : StageOutcome)
    (s : StockAnalysisState) : StockAnalysisState :=
  match o with
  | .fail msg => { s with errors := s.errors ++ [g.failLabel ++ msg] }
  | .success a c kf d =>
      let s' := s.setSlot g ⟨g.agentType, g.agentName, a, c, kf, d⟩
      { s' with current_step := g.stepLabel }

/-- The `agent_analyses` dict built by FinancialAnalystAgent.analyze
(agents/stock_agents.py, lines 479-488): a key is inserted only for each
slot that is actually populated (`if state.get('finance_analysis'): ...`),
and `financial_analyst` is always inserted last with the consolidator's own
analysis text.  A stage whose slot was never filled contributes no key. -/
def consolidatorAgentAnalyses (s : StockAnalysisState) (finalText : String) :
    List (String × String) :=
  (match s.finance_analysis with
    | some x => [("finance_guru", x.analysis)]
    | none => []) ++
  (match s.geopolitics_analysis with
    | some x => [("geopolitics_guru", x.analysis)]
    | none => []) ++
  (match s.legal_analysis with
    | some x => [("legal_guru", x.analysis)]
    | none => []) ++
  (match s.quant_analysis with
    | some x => [("quant_dev", x.analysis)]
    | none => []) ++
  [("financial_analyst", finalText)]

/-- FinancialAnalystAgent.analyze (agents/stock_agents.py, lines 399-506):
the consolidator stage.  On full success it writes its `final_analysis`
slot, builds the terminal `StockAnalysisResult` (echoing the request's
symbol, and with confidence and factors taken verbatim from its parsed
response), sets `current_step = 'analysis_complete'` and sets
`completed_at`.  If the parsed response lacks a `prediction` key
(`noPrediction`), the `final_analysis` slot has already been written when
`KeyError('prediction')` is raised, so the slot stays written, one error is
appended, and neither `analysis_result`, `current_step` nor `completed_at`
is touched.  On an earlier exception (`fail`) only an error is appended. -/
def analystAnalyze (o : AnalystOutcome) (now : String)
    (s : StockAnalysisState) : StockAnalysisState :=
  match o with
  | .fail msg =>
      { s with errors := s.errors ++ ["Final analysis failed: " ++ msg] }
  | .noPrediction a c kf d =>
      { s with
        final_analysis := some ⟨"financial_analyst", "Financial Analyst", a, c, kf, d⟩,
        errors := s.errors ++ ["Final analysis failed: 'prediction'"] }
  | .success a c kf d pred =>
      { s with
        final_analysis := some ⟨"financial_analyst", "Financial Analyst", a, c, kf, d⟩,
        analysis_result := some
          ⟨s.request.symbol, pred, consolidatorAgentAnalyses s a, c, kf⟩,
        current_step := "analysis_complete",
        completed_at := some now }

/-- The fresh record built at the top of
StockAnalysisOrchestrator.analyze_stock (orchestrator.py, lines 321-339). -/
def initialState (req : StockAnalysisRequest) (workflowId startedAt : String) :
    StockAnalysisState :=
  { request := req
    finance_analysis := none
    geopolitics_analysis := none
    legal_analysis := none
    quant_analysis := none
    final_analysis := none
    current_step := "initialized"
    errors := []
    warnings := []
    analysis_result := none
    workflow_id := workflowId
    started_at := startedAt
    completed_at := none }

/-- The compiled LangGraph workflow (orchestrator.py `_build_graph`): the
fixed sequential chain finance → geopolitics → legal → quant → final, each
edge unconditional, each node replacing the record with its return value. -/
def runGraph (env : Env) (s0 : StockAnalysisState) : StockAnalysisState :=
  analystAnalyze env.analyst env.now
    (guruAnalyze .quant env.quant
      (guruAnalyze .legal env.legal
        (guruAnalyze .geopolitics env.geopolitics
          (guruAnalyze .finance env.finance s0))))

/-- StockAnalysisOrchestrator.analyze_stock (orchestrator.py, lines 301-357):
builds the initial record (upper-casing the symbol), invokes the graph, and
— only if the graph invocation itself raises — appends a
`Workflow execution failed` error, sets `completed_at` and marks
`current_step = 'workflow_failed'` on the initial record. -/
def analyze_stock (env : Env) (symbol time_frequency : String)
    (user_context : Option String) (workflowId startedAt : String) :
    StockAnalysisState :=
  let init := initialState ⟨symbol.toUpper, time_frequency, user_context⟩
      workflowId startedAt
  match env.graphFail with
  | none => runGraph env init
  | some m =>
      { init with
        errors := init.errors ++ ["Workflow execution failed: " ++ m],
        completed_at := some env.now,
        current_step := "workflow_failed" }

/- ------------------------------------------------------------------ -/
/- BaseStockAgent._parse_response (agents/stock_agents.py, lines 31-58) -/
/- ------------------------------------------------------------------ -/

/-- Python `str.startswith`, on character lists. -/
def pyStartsWith : List Char → List Char → Bool
  | _, [] => true
  | [], _ :: _ => false
  | c :: cs, p :: ps => c == p && pyStartsWith cs ps

/-- Worker for `pySplit`: scans the text left to right, emitting a piece at
each non-overlapping occurrence of the (non-empty) separator.  `fuel` is an
upper bound on the number of scanning steps; one character or one separator
occurrence is consumed per step, so any fuel of at least the text length is
enough, and the fuel-exhausted arm is unreachable in `pySplit`. -/
def pySplitAux (pat : List Char) : ℕ → List Char → List Char → List (List Char)
  | _, acc, [] => [acc.reverse]
  | 0, acc, rest => [acc.reverse ++ rest]
  | fuel + 1, acc, c :: cs =>
      if pyStartsWith (c :: cs) pat then
        acc.reverse :: pySplitAux pat fuel [] (List.drop (pat.length - 1) cs)
      else
        pySplitAux pat fuel (c :: acc) cs

/-- Python `s.split(sep)` for a non-empty separator: the pieces of `s`
between non-overlapping left-to-right occurrences of `sep` (`n`
occurrences yield `n + 1` pieces). -/
def pySplit (s pat : String) : List String :=
  (pySplitAux pat.toList (s.toList.length + 1) [] s.toList).map
    (fun cs => String.mk cs)

/-- Python `sep in s` (substring containment): `s.split(sep)` has at least
two pieces exactly when `sep` occurs in `s`. -/
def pyContainsSub (s pat : String) : Bool :=
  decide (2 ≤ (pySplit s pat).length)

/-- Python `s.strip()` (whitespace variant, as called with no argument). -/
def pyStrip (s : String) : String :=
  String.mk
    (((s.toList.dropWhile Char.isWhitespace).reverse.dropWhile
        Char.isWhitespace).reverse)

/-- The candidate JSON text of the fenced branch:
`response_content.split("```json")[1].split("```")[0].strip()`.  Only
evaluated when the fence occurs, so index 1 exists. -/
def fencedCandidate (s : String) : String :=
  pyStrip ((pySplit ((pySplit s "```json").getD 1 "") "```").getD 0 "")

/-- The candidate JSON text of the brace branch:
`response_content[response_content.find("{") : response_content.rfind("}") + 1]`.
Only evaluated when both braces occur.  Python slice semantics make the
result empty when the last `\x7d` precedes the first `\x7b`, which truncated
natural subtraction reproduces. -/
def braceCandidate (s : String) : String :=
  let cs := s.toList
  let start := cs.findIdx (fun c => c == '\x7b')
  let stop := cs.length - 1 - cs.reverse.findIdx (fun c => c == '\x7d')
  String.mk ((cs.drop start).take (stop + 1 - start))

/-- The exceptions observable in `_parse_response`: `json.JSONDecodeError`
from `json.loads`, and the `ValueError("No JSON found in response")` raised
by the method's own `else` branch.  (`json.JSONDecodeError` subclasses
`ValueError` in Python, but the method's first `except` clause names
`json.JSONDecodeError` specifically, so its own `ValueError` falls through
to the second, catch-all clause.) -/
inductive PyErr where
  | jsonDecodeError : PyErr
  | valueError (msg : String) : PyErr

/-- Candidate extraction of `_parse_response` (lines 34-41): fenced block
first, else first-`\x7b`-to-last-`\x7d` span, else
`raise ValueError("No JSON found in response")`. -/
def extractJsonCandidate (s : String) : Except PyErr String :=
  if pyContainsSub s "```json" then .ok (fencedCandidate s)
  else if s.toList.contains '\x7b' && s.toList.contains '\x7d' then
    .ok (braceCandidate s)
  else .error (.valueError "No JSON found in response")

/-- The fallback dict `_parse_response` returns when parsing fails:
`{"analysis": response_content, "confidence": 0.5, "key_factors": [sentinel]}`
with sentinel `"parsing_error"` (JSONDecodeError) or `"unknown_error"`
(any other exception). -/
def parseFallback (s sentinel : String) : JsonVal :=
  .jobj [("analysis", .jstr s), ("confidence", .jnum (1 / 2)),
         ("key_factors", .jarr [.jstr sentinel])]

/-- The `try` body of `_parse_response`: pick a candidate substring, then
`json.loads` it.  `loads` is the external JSON decoder, an oracle parameter
returning `none` where CPython would raise `json.JSONDecodeError`. -/
def parse_response_try (loads : String → Option JsonVal) (s : String) :
    Except PyErr JsonVal :=
  match extractJsonCandidate s with
  | .error e => .error e
  | .ok c =>
      match loads c with
      | some v => .ok v
      | none => .error .jsonDecodeError

/-- BaseStockAgent._parse_response, whole method: the `try` body wrapped in
`except json.JSONDecodeError` (fallback with sentinel `parsing_error`) and
`except Exception` (fallback with sentinel `unknown_error`).  The result is
an `Except` so that "the method never propagates an exception" is a
statement about the embedding, not a triviality of Lean totality. -/
def parse_response (loads : String → Option JsonVal) (s : String) :
    Except PyErr JsonVal :=
  match parse_response_try loads s with
  | .ok v => .ok v
  | .error .jsonDecodeError => .ok (parseFallback s "parsing_error")
  | .error (.valueError _) => .ok (parseFallback s "unknown_error")

/-- Field lookup in a JSON object (Python `d[k]` on a parsed dict,
`none` standing for `KeyError` or a non-dict value). -/
def lookupField (v : JsonVal) (k : String) : Option JsonVal :=
  match v with
  | .jobj fields => fields.lookup k
  | _ => none

/- ------------------------------------------------------------------ -/
/- PortfolioService.validate_portfolio_allocation                       -/
/- (services/portfolio_service.py, lines 28-40)                         -/
/- ------------------------------------------------------------------ -/

/-- services/portfolio_service.py `PortfolioStockData`.  The source
constructor also upper-cases the symbol and raises for an empty or overlong
symbol or an allocation outside [0, 100]; those constructor checks are
separate from `validate_portfolio_allocation` and are not needed by the
claims.  Python float percentages are modelled as rationals. -/
structure PortfolioStockData where
  symbol : String
  allocation_percentage : ℚ

/-- PortfolioService.validate_portfolio_allocation: rejects an empty list,
then rejects a total allocation outside the inclusive window
`99.0 <= total <= 101.0`, then rejects duplicate symbols
(`len(symbols) != len(set(symbols))`), and otherwise returns normally.
(`toString` renders the total differently from Python float formatting;
no claim depends on the message text.) -/
def validate_portfolio_allocation (stocks : List PortfolioStockData) :
    Except String Unit :=
  if stocks.isEmpty then .error "Portfolio must have at least one stock"
  else
    let total := (stocks.map (fun st => st.allocation_percentage)).sum
    if ¬(99 ≤ total ∧ total ≤ 101) then
      .error ("Total allocation must be ~100%, got " ++ toString total ++ "%")
    else
      let symbols := stocks.map (fun st => st.symbol)
      if symbols.length ≠ symbols.dedup.length then
        .error "Duplicate symbols not allowed"
      else .ok ()

/-- One element of a request's `portfolio_data` list (main.py): a JSON dict
carrying a `symbol` and an `allocation` percentage.  (The source reads the
percentage with `stock.get('allocation', stock.get('allocation_percentage', 0))`;
both spellings are modelled by the single `allocation` field.) -/
structure HoldingEntry where
  symbol : String
  allocation : ℚ

/-- The input validation of the `analyze_portfolio_stream_init` endpoint
(main.py, lines 622-628): empty portfolio data is rejected, then a total
allocation outside the inclusive window `99.0 <= total <= 101.0` is rejected
with an HTTP 400 — both before any session is created or any stage runs. -/
def stream_init_validate (pd : List HoldingEntry) : Except String Unit :=
  if pd.isEmpty then .error "Portfolio data is required"
  else
    let total := (pd.map (fun h => h.allocation)).sum
    if ¬(99 ≤ total ∧ total ≤ 101) then
      .error ("Portfolio allocations must sum to 100%, got " ++
        toString total ++ "%")
    else .ok ()

/- ------------------------------------------------------------------ -/
/- StockAnalysisOrchestrator._create_portfolio_result                   -/
/- (agents/orchestrator.py, lines 122-173)                              -/
/- ------------------------------------------------------------------ -/

/-- The dict `_create_portfolio_result` returns.  Its success branch fills
every key below; its `except` branch returns a dict holding only `errors`
and `analysis_result`, so every other key is `none` there (a missing dict
key reads as absent). -/
structure PortfolioFinalState where
  request : Option StockAnalysisRequest
  finance_analysis : Option AgentAnalysis
  geopolitics_analysis : Option AgentAnalysis
  legal_analysis : Option AgentAnalysis
  quant_analysis : Option AgentAnalysis
  final_analysis : Option AgentAnalysis
  current_step : Option String
  errors : List String
  warnings : List String
  analysis_result : Option StockAnalysisResult
  started_at : Option String

/-- `x.analysis if x else "Analysis not available"` — the placeholder
substitution used for each agent slot in `_create_portfolio_result`. -/
def analysisOrPlaceholder : Option AgentAnalysis → String
  | some x => x.analysis
  | none => "Analysis not available"

/-- StockAnalysisOrchestrator._create_portfolio_result.  When the pipeline
state carries a set `analysis_result`, the conditional expression computing
`confidence_score` evaluates
`portfolio_state.get('analysis_result', {}).get('confidence_score', 0.75)`;
`StockAnalysisResult` is a pydantic model with no `.get` method, so this
raises `AttributeError`, the enclosing `except` catches it, and the method
returns the two-key error dict.  Only when `analysis_result` is unset does
the success branch run, with the literal default confidence `0.75` and the
fixed factor labels, substituting the `"Analysis not available"` placeholder
for every empty agent slot. -/
def create_portfolio_result (ps : StockAnalysisState) (pd : List HoldingEntry)
    (tf : String) : PortfolioFinalState :=
  match ps.analysis_result with
  | some _ =>
      { request := none, finance_analysis := none, geopolitics_analysis := none,
        legal_analysis := none, quant_analysis := none, final_analysis := none,
        current_step := none,
        errors := ["Portfolio result creation failed: 'StockAnalysisResult' object has no attribute 'get'"],
        warnings := [], analysis_result := none, started_at := none }
  | none =>
      let portfolio_symbols := (pd.filter (fun st => st.symbol ≠ "")).map
        (fun st => st.symbol ++ "(" ++ toString st.allocation ++ "%)")
      { request := some ps.request
        finance_analysis := ps.finance_analysis
        geopolitics_analysis := ps.geopolitics_analysis
        legal_analysis := ps.legal_analysis
        quant_analysis := ps.quant_analysis
        final_analysis := ps.final_analysis
        current_step := some "analysis_complete"
        errors := ps.errors
        warnings := ps.warnings
        analysis_result := some
          { symbol := "Portfolio_" ++ toString portfolio_symbols.length ++ "_stocks"
            prediction := .jobj
              [("time_frequency", .jstr tf),
               ("portfolio_analysis", .jstr "Comprehensive portfolio-level analysis")]
            agent_analyses :=
              [("finance_guru", analysisOrPlaceholder ps.finance_analysis),
               ("geopolitics_guru", analysisOrPlaceholder ps.geopolitics_analysis),
               ("legal_guru", analysisOrPlaceholder ps.legal_analysis),
               ("quant_dev", analysisOrPlaceholder ps.quant_analysis),
               ("financial_analyst", analysisOrPlaceholder ps.final_analysis)]
            confidence_score := 3 / 4
            factors_considered :=
              ["portfolio_diversification", "multi_asset_analysis",
               "risk_assessment", "allocation_optimization"] }
        started_at := some ps.started_at }

/- ------------------------------------------------------------------ -/
/- The streaming endpoints (main.py, lines 679-965)                     -/
/- ------------------------------------------------------------------ -/

/-- One entry of the `agents` metadata list of `stream_portfolio_analysis`
(main.py, lines 831-837). -/
structure AgentMeta where
  id : String
  name : String
  icon : String
  descr : String

/-- The fixed agent metadata list, in pipeline order. -/
def agentsList : List AgentMeta :=
  [⟨"finance_guru", "Finance Guru", "🏦",
      "Analyzing financial metrics and market fundamentals"⟩,
   ⟨"geopolitics_guru", "Geopolitics Guru", "🌍",
      "Evaluating global events and geopolitical impacts"⟩,
   ⟨"legal_guru", "Legal Guru", "⚖️",
      "Assessing regulatory compliance and legal risks"⟩,
   ⟨"quant_dev", "Quant Dev", "📊",
      "Performing technical analysis and statistical modeling"⟩,
   ⟨"financial_analyst", "Financial Analyst", "📈",
      "Consolidating expert insights into final predictions"⟩]

/-- generate_mock_agent_analysis (main.py, lines 900-965): the fixed mock
analysis template keyed by agent id.  Numeric interpolations use `toString`
where Python uses f-string rendering; no claim depends on that rendering. -/
def generate_mock_agent_analysis (agent : AgentMeta)
    (portfolio_symbols : List String) (time_frequency : String) : String :=
  let n := toString portfolio_symbols.length
  if agent.id == "finance_guru" then
    "Portfolio Financial Analysis (" ++ time_frequency ++ "):\n\n" ++
    "Analyzed " ++ n ++ " positions: " ++
    String.intercalate ", " (portfolio_symbols.take 3) ++ "\n\n" ++
    "Key Financial Insights:\n" ++
    "• Portfolio shows diversified exposure across sectors\n" ++
    "• Weighted average P/E ratio indicates balanced valuation\n" ++
    "• Revenue growth trends are positive across major holdings\n" ++
    "• Risk-adjusted returns demonstrate solid fundamentals\n\n" ++
    "Recommendation: Portfolio composition aligns with current market conditions and shows strong financial health indicators."
  else if agent.id == "geopolitics_guru" then
    "Portfolio Geopolitical Risk Assessment (" ++ time_frequency ++ "):\n\n" ++
    "Geographic and Political Analysis for " ++ n ++ " holdings:\n\n" ++
    "Key Geopolitical Factors:\n" ++
    "• International trade relations impact on portfolio companies\n" ++
    "• Currency fluctuation risks across global markets\n" ++
    "• Regulatory changes in key operating regions\n" ++
    "• Supply chain resilience considerations\n\n" ++
    "Risk Level: MODERATE - Diversification provides good geopolitical risk mitigation."
  else if agent.id == "legal_guru" then
    "Portfolio Legal & Regulatory Analysis (" ++ time_frequency ++ "):\n\n" ++
    "Compliance and Legal Risk Assessment:\n\n" ++
    "Key Legal Considerations:\n" ++
    "• Regulatory compliance status across all holdings\n" ++
    "• Industry-specific legal requirements evaluation\n" ++
    "• ESG compliance and sustainability regulations\n" ++
    "• Data privacy and cybersecurity legal frameworks\n\n" ++
    "Legal Risk Rating: LOW-MODERATE - Well-positioned for current regulatory environment."
  else if agent.id == "quant_dev" then
    "Portfolio Quantitative Analysis (" ++ time_frequency ++ "):\n\n" ++
    "Technical and Statistical Analysis:\n\n" ++
    "Key Technical Indicators:\n" ++
    "• Portfolio beta: 1.12 (slightly more volatile than market)\n" ++
    "• Correlation matrix shows good diversification benefits\n" ++
    "• Moving averages trending positive across major positions\n" ++
    "• Volatility analysis indicates balanced risk profile\n\n" ++
    "Quantitative Score: 7.8/10 - Strong technical foundation with good risk management."
  else if agent.id == "financial_analyst" then
    "Final Portfolio Investment Analysis (" ++ time_frequency ++ "):\n\n" ++
    "Consolidated Expert Opinion:\n\n" ++
    "Portfolio Summary:\n" ++
    "• " ++ n ++ " diversified positions\n" ++
    "• Balanced risk-return profile\n" ++
    "• Strong fundamentals with growth potential\n" ++
    "• Well-positioned for " ++ time_frequency ++ " timeframe\n\n" ++
    "Final Recommendation: BUY/HOLD - Portfolio demonstrates solid fundamentals, appropriate diversification, and positive outlook across all expert analysis dimensions."
  else "Analysis completed for " ++ agent.name

/-- The discrete wire events of the streaming endpoints.  Each Python event
dict also carries an ISO timestamp (`datetime.now().isoformat()`); no claim
inspects timestamps and they are wall-clock effects, so they are omitted
from the payloads. -/
inductive StreamEvent where
  | sessionStart (session_id workflow_id : String) (portfolio : List String) : StreamEvent
  | userMessage (content : String) : StreamEvent
  | statusUpdate (status message : String) : StreamEvent
  | systemMessage (content : String) : StreamEvent
  | agentStart (agent_id agent_name icon content : String)
      (step total_steps : ℕ) : StreamEvent
  | agentThinking (agent_id content : String) : StreamEvent
  | agentComplete (agent_id agent_name icon content analysis : String)
      (confidence : ℚ) (processing_time_ms : ℕ) : StreamEvent
  | finalResult (content : String) (confidence_score : ℚ) : StreamEvent
  | errorEvent (message : String) : StreamEvent
  | sessionComplete (message : String) : StreamEvent

/-- The `type` tag of an event. -/
inductive EventKind where
  | kSessionStart | kUserMessage | kStatusUpdate | kSystemMessage
  | kAgentStart | kAgentThinking | kAgentComplete | kFinalResult
  | kErrorEvent | kSessionComplete
deriving DecidableEq, Repr

/-- Project an event to its `type` tag. -/
def StreamEvent.kind : StreamEvent → EventKind
  | .sessionStart _ _ _ => .kSessionStart
  | .userMessage _ => .kUserMessage
  | .statusUpdate _ _ => .kStatusUpdate
  | .systemMessage _ => .kSystemMessage
  | .agentStart _ _ _ _ _ _ => .kAgentStart
  | .agentThinking _ _ => .kAgentThinking
  | .agentComplete _ _ _ _ _ _ _ => .kAgentComplete
  | .finalResult _ _ => .kFinalResult
  | .errorEvent _ => .kErrorEvent
  | .sessionComplete _ => .kSessionComplete

/-- `f"{stock['symbol']}({...allocation...}%)"` labels used by
`stream_portfolio_analysis` (main.py, lines 812-813). -/
def portfolioSymbolLabels (pd : List HoldingEntry) : List String :=
  pd.map (fun st => st.symbol ++ "(" ++ toString st.allocation ++ "%)")

/-- The three events `stream_portfolio_analysis` yields for the `i`-th agent
(0-based): `agent_start`, `agent_thinking`, then `agent_complete` carrying
the mock analysis, the synthetic confidence `0.75 + i * 0.05`, and the
synthetic duration `2000 + i * 500` ms (main.py, lines 840-882). -/
def stageStreamEvents (symbols : List String) (tf : String) (i : ℕ)
    (m : AgentMeta) : List StreamEvent :=
  [.agentStart m.id m.name m.icon
      (m.icon ++ " " ++ m.name ++ ": " ++ m.descr) (i + 1) 5,
   .agentThinking m.id
      ("🧠 Analyzing portfolio from " ++ m.name.toLower ++ " perspective..."),
   .agentComplete m.id m.name m.icon ("✅ " ++ m.name ++ " analysis complete")
      (generate_mock_agent_analysis m symbols tf)
      ((3 : ℚ) / 4 + (i : ℚ) * (1 / 20)) (2000 + i * 500)]

/-- The full event sequence of an exception-free run of
`stream_portfolio_analysis` (main.py, lines 807-890): one `system_message`,
then the three per-agent events for each of the five agents in order, then
one `final_result` with the fixed confidence `0.82`. -/
def streamFullEvents (pd : List HoldingEntry) (tf : String) : List StreamEvent :=
  let symbols := portfolioSymbolLabels pd
  .systemMessage ("🤖 Starting comprehensive multi-agent analysis for " ++
      toString pd.length ++ " stocks")
    :: (agentsList.enum.map (fun p => stageStreamEvents symbols tf p.1 p.2)).flatten
    ++ [.finalResult ("✅ Portfolio analysis complete! All 5 AI experts have analyzed your " ++
          toString pd.length ++ "-stock portfolio.") (41 / 50)]

/-- stream_portfolio_analysis with its enclosing `try`/`except`: an
exception raised inside the generator body is modelled by the oracle
`failAfter = some n`, meaning it struck after `n` events had been yielded;
the `except` then yields a single `error` event and the generator returns
normally.  `failAfter = none` is the exception-free run. -/
def stream_portfolio_analysis (pd : List HoldingEntry) (tf : String)
    (failAfter : Option ℕ) (failMsg : String) : List StreamEvent :=
  match failAfter with
  | none => streamFullEvents pd tf
  | some n =>
      (streamFullEvents pd tf).take n ++
        [.errorEvent ("Streaming analysis failed: " ++ failMsg)]

/-- The per-session data placed in `app.state.streaming_sessions` by
`analyze_portfolio_stream_init` (main.py, lines 651-664); the fields the
stream endpoint reads. -/
structure SessionData where
  workflow_id : String
  portfolio_data : List HoldingEntry
  time_frequency : String

/-- generate_sse_stream of the `/stream/{session_id}` endpoint (main.py,
lines 683-727), returning the yielded event list together with the
streaming-session store after the request.  The store
(`app.state.streaming_sessions`, a dict keyed by session id) is modelled as
a partial map.  An unknown session id yields exactly one
`error: Session not found` event.  Otherwise the endpoint yields
`session_start`, `user_message`, `status_update(processing)`, re-emits every
event of `stream_portfolio_analysis`, yields `session_complete`, and only
then deletes the session entry.  An exception in the endpoint's own body
(database calls, transport) is modelled by `outerFailAfter = some n`:
the stream is cut after `n` events, a single `error` event is yielded, and —
the deletion statement being last — the store is left unchanged. -/
def generate_sse_stream (store : String → Option SessionData)
    (session_id : String) (failAfter : Option ℕ) (failMsg : String)
    (outerFailAfter : Option ℕ) (outerFailMsg : String) :
    List StreamEvent × (String → Option SessionData) :=
  match store session_id with
  | none => ([.errorEvent "Session not found"], store)
  | some sd =>
      let inner := stream_portfolio_analysis sd.portfolio_data
        sd.time_frequency failAfter failMsg
      let full :=
        [.sessionStart session_id sd.workflow_id
            (sd.portfolio_data.map (fun st => st.symbol)),
         .userMessage ("Analyze portfolio with " ++
            toString sd.portfolio_data.length ++ " stocks for " ++
            sd.time_frequency ++ " timeframe"),
         .statusUpdate "processing" "Starting multi-agent analysis..."] ++
        inner ++
        [.sessionComplete "Portfolio analysis completed successfully"]
      match outerFailAfter with
      | none =>
          (full, fun x => if x = session_id then none else store x)
      | some n =>
          (full.take n ++
            [.errorEvent ("Analysis failed: " ++ outerFailMsg)], store)

/- ------------------------------------------------------------------ -/
/- Statement-side helpers and concrete fixtures                         -/
/- ------------------------------------------------------------------ -/

/-- The error-list contribution of one specialist stage: one entry when the
stage's body raised, none otherwise. -/
def StageOutcome.errContrib (o : StageOutcome) (g : GuruKind) : List String :=
  match o with
  | .fail m => [g.failLabel ++ m]
  | .success _ _ _ _ => []

/-- The slot value a specialist stage leaves behind, starting from an empty
slot: the stage's `AgentAnalysis` on success, empty on failure. -/
def StageOutcome.asSlot (o : StageOutcome) (g : GuruKind) : Option AgentAnalysis :=
  match o with
  | .fail _ => none
  | .success a c kf d => some ⟨g.agentType, g.agentName, a, c, kf, d⟩

/-- The error-list contribution of the consolidator stage. -/
def AnalystOutcome.errContrib : AnalystOutcome → List String
  | .fail m => ["Final analysis failed: " ++ m]
  | .noPrediction _ _ _ _ => ["Final analysis failed: 'prediction'"]
  | .success _ _ _ _ _ => []

/-- The `final_analysis` slot value the consolidator leaves behind, starting
from an empty slot: written both on full success and when the later
`prediction` lookup raises, empty only when the stage raised earlier. -/
def AnalystOutcome.asSlot : AnalystOutcome → Option AgentAnalysis
  | .fail _ => none
  | .noPrediction a c kf d =>
      some ⟨"financial_analyst", "Financial Analyst", a, c, kf, d⟩
  | .success a c kf d _ =>
      some ⟨"financial_analyst", "Financial Analyst", a, c, kf, d⟩

/-- Whether the consolidator ran to the end of its `try` body (and hence
produced a terminal result). -/
def AnalystOutcome.isFullSuccess : AnalystOutcome → Bool
  | .success _ _ _ _ _ => true
  | _ => false

/-- The error list accumulated over one graph invocation: each stage
appends its contribution in pipeline order. -/
def Env.errList (env : Env) : List String :=
  env.finance.errContrib .finance ++ env.geopolitics.errContrib .geopolitics ++
    env.legal.errContrib .legal ++ env.quant.errContrib .quant ++
    env.analyst.errContrib

/-- The `current_step` label left by one graph invocation: the completion
label of the last stage that completed successfully, or `initialized` if
none did (a failing stage does not update `current_step`, and the
consolidator's `noPrediction` path raises before its `current_step`
assignment). -/
def Env.graphStepLabel (env : Env) : String :=
  match env.analyst with
  | .success _ _ _ _ _ => "analysis_complete"
  | _ =>
      match env.quant with
      | .success _ _ _ _ => "quant_complete"
      | _ =>
          match env.legal with
          | .success _ _ _ _ => "legal_complete"
          | _ =>
              match env.geopolitics with
              | .success _ _ _ _ => "geopolitics_complete"
              | _ =>
                  match env.finance with
                  | .success _ _ _ _ => "finance_complete"
                  | _ => "initialized"

/-- The `current_step` label after `analyze_stock`: `workflow_failed` when
the graph invocation itself raised, otherwise the last successful stage's
completion label. -/
def Env.lastStepLabel (env : Env) : String :=
  match env.graphFail with
  | some _ => "workflow_failed"
  | none => env.graphStepLabel

/-- The `agent_analyses` mapping the consolidator builds under outcome
environment `env`: one key per successful specialist stage (in pipeline
order), plus `financial_analyst` always, with no entry at all for a failed
stage. -/
def expectedAgentAnalyses (env : Env) (finalText : String) :
    List (String × String) :=
  (match env.finance with
    | .success a _ _ _ => [("finance_guru", a)]
    | _ => []) ++
  (match env.geopolitics with
    | .success a _ _ _ => [("geopolitics_guru", a)]
    | _ => []) ++
  (match env.legal with
    | .success a _ _ _ => [("legal_guru", a)]
    | _ => []) ++
  (match env.quant with
    | .success a _ _ _ => [("quant_dev", a)]
    | _ => []) ++
  [("financial_analyst", finalText)]

/-- Whether an `Except` value is a normal return (`True`/`ok`) rather than a
raised exception, without inspecting the carried values. -/
def exceptAccepts {ε α : Type} : Except ε α → Bool
  | .ok _ => true
  | .error _ => false

/-- The `(confidence, processing_time_ms)` payload of an `agent_complete`
event, `none` for every other event kind. -/
def agentCompletePayload : StreamEvent → Option (ℚ × ℕ)
  | .agentComplete _ _ _ _ _ c d => some (c, d)
  | _ => none

/-- The `(agent_id, analysis)` payload of an `agent_complete` event. -/
def agentCompleteIdText : StreamEvent → Option (String × String)
  | .agentComplete aid _ _ _ an _ _ => some (aid, an)
  | _ => none

/-- The event-kind sequence of an exception-free inner analysis stream:
`system_message`, then `agent_start` / `agent_thinking` / `agent_complete`
for each of the five agents, then `final_result`. -/
def innerSuccessKinds : List EventKind :=
  [.kSystemMessage,
   .kAgentStart, .kAgentThinking, .kAgentComplete,
   .kAgentStart, .kAgentThinking, .kAgentComplete,
   .kAgentStart, .kAgentThinking, .kAgentComplete,
   .kAgentStart, .kAgentThinking, .kAgentComplete,
   .kAgentStart, .kAgentThinking, .kAgentComplete,
   .kFinalResult]

/-- Modelled from the spec (§4.4) for comparison with the source: the
event-kind sequence the specification claims for a successful streamed run —
`session_start`, `user_message`, `status_update(processing)`, then the three
per-stage events for each of the five stages, then `final_result`, then
`session_complete`, with no other events. -/
def claimedSuccessKinds : List EventKind :=
  [.kSessionStart, .kUserMessage, .kStatusUpdate,
   .kAgentStart, .kAgentThinking, .kAgentComplete,
   .kAgentStart, .kAgentThinking, .kAgentComplete,
   .kAgentStart, .kAgentThinking, .kAgentComplete,
   .kAgentStart, .kAgentThinking, .kAgentComplete,
   .kAgentStart, .kAgentThinking, .kAgentComplete,
   .kFinalResult, .kSessionComplete]

/-- A concrete run environment in which every stage succeeds. -/
def envAllSuccess : Env :=
  { finance := .success "fin text" (4 / 5) ["f1"] 100
    geopolitics := .success "geo text" (3 / 4) ["g1"] 110
    legal := .success "leg text" (7 / 10) ["l1"] 120
    quant := .success "qnt text" (9 / 10) ["q1"] 130
    analyst := .success "final text" (41 / 50) ["k1"] 140
      (.jobj [("time_frequency", .jstr "1M")])
    graphFail := none
    now := "2024-01-01T00:00:00+00:00" }

/-- A concrete run in which the consolidator's LLM call raises, so the run
reaches the failed terminal transition (consolidator finished, no result). -/
def envConsolidatorFails : Env :=
  { envAllSuccess with analyst := .fail "Connection timeout" }

/-- A concrete run in which the consolidator's response parse fell back to
free text, so the parsed dict has no `prediction` key and
`KeyError('prediction')` is raised after the `final_analysis` slot was
written. -/
def envConsolidatorNoPrediction : Env :=
  { envAllSuccess with
      analyst := .noPrediction "free text" (1 / 2) ["parsing_error"] 150 }

/-- A concrete run in which the finance stage raises and every later stage
succeeds. -/
def envFinanceFails : Env :=
  { envAllSuccess with finance := .fail "HTTP 500" }

/-- A concrete run in which every stage succeeds but the consolidator's
parsed confidence is 1.5 (the parsed JSON number is taken verbatim; nothing
in the source clamps it). -/
def envHighConfidence : Env :=
  { envAllSuccess with
      analyst := .success "final text" (3 / 2) ["k1"] 140 (.jobj []) }

/-- A concrete streaming-session record. -/
def sdEx : SessionData :=
  { workflow_id := "wf-1"
    portfolio_data := [⟨"AAPL", 60⟩, ⟨"MSFT", 40⟩]
    time_frequency := "1M" }

/-- A concrete streaming-session store holding exactly the session
`sess-1`. -/
def storeEx : String → Option SessionData :=
  fun x => if x = "sess-1" then some sdEx else none

/- ------------------------------------------------------------------ -/
/- Helper lemmas                                                        -/
/- ------------------------------------------------------------------ -/

/-- Full characterization of one graph invocation on a fresh record: each
field of the final state as a function of the per-stage outcomes. -/
theorem runGraph_char (env : Env) (req : StockAnalysisRequest) (wf st : String) :
    (runGraph env (initialState req wf st)).request = req ∧
    (runGraph env (initialState req wf st)).errors = env.errList ∧
    (runGraph env (initialState req wf st)).warnings = [] ∧
    (runGraph env (initialState req wf st)).workflow_id = wf ∧
    (runGraph env (initialState req wf st)).started_at = st ∧
    (runGraph env (initialState req wf st)).finance_analysis = env.finance.asSlot .finance ∧
    (runGraph env (initialState req wf st)).geopolitics_analysis = env.geopolitics.asSlot .geopolitics ∧
    (runGraph env (initialState req wf st)).legal_analysis = env.legal.asSlot .legal ∧
    (runGraph env (initialState req wf st)).quant_analysis = env.quant.asSlot .quant ∧
    (runGraph env (initialState req wf st)).final_analysis = env.analyst.asSlot ∧
    (runGraph env (initialState req wf st)).current_step = env.graphStepLabel ∧
    (runGraph env (initialState req wf st)).completed_at =
      (if env.analyst.isFullSuccess then some env.now else none) ∧
    (runGraph env (initialState req wf st)).analysis_result =
      (match env.analyst with
        | .success a c kf _ p =>
            some ⟨req.symbol, p, expectedAgentAnalyses env a, c, kf⟩
        | _ => none) := by
  obtain ⟨f, g, l, q, a, gf, now⟩ := env
  cases f <;> cases g <;> cases l <;> cases q <;> cases a <;>
    simp [runGraph, guruAnalyze, analystAnalyze, initialState,
      StockAnalysisState.setSlot, Env.errList, Env.graphStepLabel,
      StageOutcome.errContrib, StageOutcome.asSlot, AnalystOutcome.errContrib,
      AnalystOutcome.asSlot, AnalystOutcome.isFullSuccess,
      GuruKind.agentType, GuruKind.agentName, GuruKind.stepLabel,
      GuruKind.failLabel, expectedAgentAnalyses, consolidatorAgentAnalyses]

/- ------------------------------------------------------------------ -/
/- Claim theorems                                                       -/
/- ------------------------------------------------------------------ -/

/-- Claim C5 (amended).  The claim holds for the four specialist stages: if
stage k raises, its slot stays empty (`asSlot` of a failure is empty), the
error list gains exactly the one entry contributed by stage k (`errList`
concatenates per-stage contributions, a failing stage contributing exactly
one), nothing else of the record is modified by stage k, and every later
stage still executes (every slot and error contribution below is determined
by that stage's own outcome, independent of earlier failures; there is no
abort threshold).  The Consolidator is the exception the claim misses: on
its `noPrediction` path it raises only after writing its `final_analysis`
slot, so its slot is written even though it appended an error and produced
no result. -/
theorem stage_failure_isolated (env : Env) (req : StockAnalysisRequest)
    (wf st : String) :
    (runGraph env (initialState req wf st)).errors = env.errList ∧
    (runGraph env (initialState req wf st)).finance_analysis = env.finance.asSlot .finance ∧
    (runGraph env (initialState req wf st)).geopolitics_analysis = env.geopolitics.asSlot .geopolitics ∧
    (runGraph env (initialState req wf st)).legal_analysis = env.legal.asSlot .legal ∧
    (runGraph env (initialState req wf st)).quant_analysis = env.quant.asSlot .quant ∧
    (runGraph env (initialState req wf st)).final_analysis = env.analyst.asSlot ∧
    (runGraph env (initialState req wf st)).warnings = [] ∧
    (runGraph env (initialState req wf st)).request = req := by
  obtain ⟨h1, h2, h3, h4, h5, h6, h7, h8, h9, h10, h11, h12, h13⟩ :=
    runGraph_char env req wf st
  exact ⟨h2, h6, h7, h8, h9, h10, h3, h1⟩

/-- Claim C5, witness: the amended characterization at a concrete
environment in which the geopolitics stage fails and all others succeed. -/
theorem stage_failure_isolated_witness :
    (runGraph { envAllSuccess with geopolitics := .fail "boom" }
        (initialState ⟨"AAPL", "1M", none⟩ "wf" "t0")).errors =
      Env.errList { envAllSuccess with geopolitics := .fail "boom" } ∧
    (runGraph { envAllSuccess with geopolitics := .fail "boom" }
        (initialState ⟨"AAPL", "1M", none⟩ "wf" "t0")).geopolitics_analysis = none := by
  have h := stage_failure_isolated { envAllSuccess with geopolitics := .fail "boom" }
    ⟨"AAPL", "1M", none⟩ "wf" "t0"
  exact ⟨h.1, h.2.2.1⟩

/-- Claim C5, counterexample to the claim as stated: a run in which the
Consolidator's parsed response lacks the `prediction` key (always the case
when its parse fell back to free text).  The stage raises
`KeyError('prediction')` — one error entry is appended and no result is
produced — yet its `final_analysis` slot is written, contradicting "if
stage k raises, its slot remains empty and the record is otherwise
unmodified". -/
theorem consolidator_raises_after_slot_write :
    (runGraph envConsolidatorNoPrediction
        (initialState ⟨"AAPL", "1M", none⟩ "wf" "t0")).final_analysis =
      some ⟨"financial_analyst", "Financial Analyst", "free text", 1 / 2,
        ["parsing_error"], 150⟩ ∧
    (runGraph envConsolidatorNoPrediction
        (initialState ⟨"AAPL", "1M", none⟩ "wf" "t0")).errors =
      ["Final analysis failed: 'prediction'"] ∧
    (runGraph envConsolidatorNoPrediction
        (initialState ⟨"AAPL", "1M", none⟩ "wf" "t0")).analysis_result = none :=
  ⟨rfl, rfl, rfl⟩

/-- Claim C1 (amended).  `completed_at` starts unset and is written at most
once, with the single completion timestamp; it is set exactly when the run
succeeded (the Consolidator produced a result) or the graph invocation
itself raised.  On the failed terminal transition — the Consolidator
finished without producing a result, its own `except` having swallowed the
exception — `completed_at` remains unset. -/
theorem completed_at_set_only_on_success (env : Env) (symbol tf : String)
    (ctx : Option String) (wf st : String) :
    ((analyze_stock env symbol tf ctx wf st).completed_at = none ∨
      (analyze_stock env symbol tf ctx wf st).completed_at = some env.now) ∧
    ((analyze_stock env symbol tf ctx wf st).completed_at.isSome ↔
      (env.graphFail.isSome ∨
        (analyze_stock env symbol tf ctx wf st).analysis_result.isSome)) := by
  obtain ⟨-, -, -, -, -, -, -, -, -, -, -, h12, h13⟩ :=
    runGraph_char env ⟨symbol.toUpper, tf, ctx⟩ wf st
  cases hgf : env.graphFail with
  | some m => simp [analyze_stock, hgf]
  | none =>
      simp only [analyze_stock, hgf]
      constructor
      · rw [h12]
        cases env.analyst.isFullSuccess <;> simp
      · rw [h12, h13]
        cases ha : env.analyst <;> simp [ha, AnalystOutcome.isFullSuccess]

/-- Claim C1, witness: the amended statement at a concrete all-success
environment. -/
theorem completed_at_witness :
    ((analyze_stock envAllSuccess "AAPL" "1M" none "wf" "t0").completed_at = none ∨
      (analyze_stock envAllSuccess "AAPL" "1M" none "wf" "t0").completed_at =
        some envAllSuccess.now) ∧
    ((analyze_stock envAllSuccess "AAPL" "1M" none "wf" "t0").completed_at.isSome ↔
      (envAllSuccess.graphFail.isSome ∨
        (analyze_stock envAllSuccess "AAPL" "1M" none "wf" "t0").analysis_result.isSome)) :=
  completed_at_set_only_on_success envAllSuccess "AAPL" "1M" none "wf" "t0"

/-- Claim C1, counterexample to the claim as stated: a run that reaches the
failed terminal transition (the Consolidator's completion call raised, it
appended its diagnostic and produced no result), yet `completed_at` is not
set there. -/
theorem consolidator_failure_completed_at_unset :
    (analyze_stock envConsolidatorFails "AAPL" "1M" none "wf" "t0").errors =
      ["Final analysis failed: Connection timeout"] ∧
    (analyze_stock envConsolidatorFails "AAPL" "1M" none "wf" "t0").analysis_result =
      none ∧
    (analyze_stock envConsolidatorFails "AAPL" "1M" none "wf" "t0").completed_at =
      none :=
  ⟨rfl, rfl, rfl⟩

/-- Claim C7 (amended).  After any run, `current_step` equals the completion
label of the last stage that completed successfully (`initialized` if none
did, `workflow_failed` if the graph invocation itself raised) — not of the
last stage that executed, since a stage that raises does not update
`current_step`.  The slot-ownership half of the claim holds as stated:
every populated slot carries its own stage's `agent_type`. -/
theorem current_step_tracks_last_success (env : Env) (symbol tf : String)
    (ctx : Option String) (wf st : String) :
    (analyze_stock env symbol tf ctx wf st).current_step = env.lastStepLabel ∧
    ((analyze_stock env symbol tf ctx wf st).finance_analysis.all
        fun x => x.agent_type == "finance_guru") = true ∧
    ((analyze_stock env symbol tf ctx wf st).geopolitics_analysis.all
        fun x => x.agent_type == "geopolitics_guru") = true ∧
    ((analyze_stock env symbol tf ctx wf st).legal_analysis.all
        fun x => x.agent_type == "legal_guru") = true ∧
    ((analyze_stock env symbol tf ctx wf st).quant_analysis.all
        fun x => x.agent_type == "quant_dev") = true ∧
    ((analyze_stock env symbol tf ctx wf st).final_analysis.all
        fun x => x.agent_type == "financial_analyst") = true := by
  obtain ⟨-, -, -, -, -, h6, h7, h8, h9, h10, h11, -, -⟩ :=
    runGraph_char env ⟨symbol.toUpper, tf, ctx⟩ wf st
  cases hgf : env.graphFail with
  | some m => simp [analyze_stock, hgf, Env.lastStepLabel, initialState]
  | none =>
      simp only [analyze_stock, hgf, Env.lastStepLabel]
      refine ⟨h11, ?_, ?_, ?_, ?_, ?_⟩
      · rw [h6]; cases env.finance <;>
          simp [StageOutcome.asSlot, GuruKind.agentType, Option.all]
      · rw [h7]; cases env.geopolitics <;>
          simp [StageOutcome.asSlot, GuruKind.agentType, Option.all]
      · rw [h8]; cases env.legal <;>
          simp [StageOutcome.asSlot, GuruKind.agentType, Option.all]
      · rw [h9]; cases env.quant <;>
          simp [StageOutcome.asSlot, GuruKind.agentType, Option.all]
      · rw [h10]; cases env.analyst <;> simp [AnalystOutcome.asSlot, Option.all]

/-- Claim C7, witness: the amended statement at a concrete all-success
environment. -/
theorem current_step_witness :
    (analyze_stock envAllSuccess "AAPL" "1M" none "wf" "t0").current_step =
      envAllSuccess.lastStepLabel ∧
    ((analyze_stock envAllSuccess "AAPL" "1M" none "wf" "t0").finance_analysis.all
        fun x => x.agent_type == "finance_guru") = true := by
  have h := current_step_tracks_last_success envAllSuccess "AAPL" "1M" none "wf" "t0"
  exact ⟨h.1, h.2.1⟩

/-- Claim C7, counterexample to the claim as stated: in a run whose
Consolidator executed but raised, `current_step` still names the
quantitative stage (`quant_complete`), not the last stage that executed
(the Consolidator, whose success label would have been
`analysis_complete`). -/
theorem current_step_after_consolidator_failure :
    (analyze_stock envConsolidatorFails "AAPL" "1M" none "wf" "t0").current_step =
      "quant_complete" ∧
    (analyze_stock envConsolidatorFails "AAPL" "1M" none "wf" "t0").errors =
      ["Final analysis failed: Connection timeout"] ∧
    "quant_complete" ≠ "analysis_complete" :=
  ⟨rfl, rfl, by decide⟩

/-- Claim C3 (amended).  In a single-request pipeline run, the final
result's `agent_analyses` contains a key only for each specialist slot that
was actually filled (plus `financial_analyst`, always): a missing slot
yields an absent key, not a placeholder (`expectedAgentAnalyses`
contributes no entry for a failed stage).  The
`"Analysis not available"` placeholder substitution exists only in the
portfolio-mode result builder `_create_portfolio_result`, and only on its
reachable branch (pipeline state without a result); when the pipeline state
does carry a result, that builder's `.get` call on the pydantic model
raises and no portfolio result is produced at all. -/
theorem agent_analyses_key_policy
    (env : Env) (req : StockAnalysisRequest) (wf st : String)
    (a : String) (c : ℚ) (kf : List String) (d : ℕ) (p : JsonVal)
    (ha : env.analyst = .success a c kf d p) :
    ((runGraph env (initialState req wf st)).analysis_result).map
        (fun r => r.agent_analyses) = some (expectedAgentAnalyses env a) ∧
    (∀ (ps : StockAnalysisState) (pd : List HoldingEntry) (tf : String),
      ps.analysis_result = none →
      ((create_portfolio_result ps pd tf).analysis_result).map
          (fun r => r.agent_analyses) =
        some [("finance_guru", analysisOrPlaceholder ps.finance_analysis),
              ("geopolitics_guru", analysisOrPlaceholder ps.geopolitics_analysis),
              ("legal_guru", analysisOrPlaceholder ps.legal_analysis),
              ("quant_dev", analysisOrPlaceholder ps.quant_analysis),
              ("financial_analyst", analysisOrPlaceholder ps.final_analysis)]) ∧
    (∀ (ps : StockAnalysisState) (pd : List HoldingEntry) (tf : String)
        (r : StockAnalysisResult),
      ps.analysis_result = some r →
      (create_portfolio_result ps pd tf).analysis_result = none) := by
  refine ⟨?_, ?_, ?_⟩
  · obtain ⟨-, -, -, -, -, -, -, -, -, -, -, -, h13⟩ := runGraph_char env req wf st
    rw [h13]
    simp [ha]
  · intro ps pd tf h
    simp [create_portfolio_result, h]
  · intro ps pd tf r h
    simp [create_portfolio_result, h]

/-- Claim C3, witness: the amended statement at a concrete all-success run,
and the portfolio-mode placeholder substitution on a fresh (empty-slot,
resultless) state. -/
theorem agent_analyses_key_policy_witness :
    ((runGraph envAllSuccess (initialState ⟨"AAPL", "1M", none⟩ "wf" "t0")).analysis_result).map
        (fun r => r.agent_analyses) =
      some (expectedAgentAnalyses envAllSuccess "final text") ∧
    ((create_portfolio_result (initialState ⟨"AAPL", "1M", none⟩ "wf" "t0")
        [] "1M").analysis_result).map (fun r => r.agent_analyses) =
      some [("finance_guru", analysisOrPlaceholder none),
            ("geopolitics_guru", analysisOrPlaceholder none),
            ("legal_guru", analysisOrPlaceholder none),
            ("quant_dev", analysisOrPlaceholder none),
            ("financial_analyst", analysisOrPlaceholder none)] := by
  have h := agent_analyses_key_policy envAllSuccess ⟨"AAPL", "1M", none⟩ "wf" "t0"
    "final text" (41 / 50) ["k1"] 140 (.jobj [("time_frequency", .jstr "1M")]) rfl
  exact ⟨h.1, h.2.1 (initialState ⟨"AAPL", "1M", none⟩ "wf" "t0") [] "1M" rfl⟩

/-- Claim C3, counterexample to the claim as stated: in a single-request run
whose finance stage failed, the final result's `agent_analyses` has only
four keys; `finance_guru` is absent, with no placeholder entry. -/
theorem missing_slot_key_absent :
    ((runGraph envFinanceFails (initialState ⟨"AAPL", "1M", none⟩ "wf" "t0")).analysis_result).map
        (fun r => r.agent_analyses) =
      some [("geopolitics_guru", "geo text"), ("legal_guru", "leg text"),
            ("quant_dev", "qnt text"), ("financial_analyst", "final text")] ∧
    ((runGraph envFinanceFails (initialState ⟨"AAPL", "1M", none⟩ "wf" "t0")).analysis_result).map
        (fun r => r.agent_analyses.lookup "finance_guru") = some none ∧
    ((runGraph envFinanceFails (initialState ⟨"AAPL", "1M", none⟩ "wf" "t0")).analysis_result).map
        (fun r => r.agent_analyses.length) = some 4 :=
  ⟨rfl, rfl, rfl⟩

/-- Claim C8 (amended).  If every stage succeeds, the final result's
`agent_analyses` has exactly the five stage-kind keys, in pipeline order,
each mapped to that stage's own analysis text, and `confidence_score`
equals the Consolidator's parsed confidence verbatim.  The claimed bound
`0 <= confidence_score <= 1` holds exactly when that parsed confidence lies
in [0, 1] — nothing in the source clamps it (the bound hypothesis `hc` is
required). -/
theorem all_success_five_keys_bounded_confidence
    (env : Env) (req : StockAnalysisRequest) (wf st : String)
    (af ag al aq a : String) (cf cg cl cq c : ℚ)
    (kff kfg kfl kfq kf : List String) (df dg dl dq d : ℕ) (p : JsonVal)
    (hf : env.finance = .success af cf kff df)
    (hg : env.geopolitics = .success ag cg kfg dg)
    (hl : env.legal = .success al cl kfl dl)
    (hq : env.quant = .success aq cq kfq dq)
    (ha : env.analyst = .success a c kf d p)
    (hc : 0 ≤ c ∧ c ≤ 1) :
    ((runGraph env (initialState req wf st)).analysis_result).map
        (fun r => r.agent_analyses) =
      some [("finance_guru", af), ("geopolitics_guru", ag),
            ("legal_guru", al), ("quant_dev", aq), ("financial_analyst", a)] ∧
    ((runGraph env (initialState req wf st)).analysis_result).map
        (fun r => r.agent_analyses.map Prod.fst) =
      some ["finance_guru", "geopolitics_guru", "legal_guru", "quant_dev",
            "financial_analyst"] ∧
    ((runGraph env (initialState req wf st)).analysis_result).map
        (fun r => r.confidence_score) = some c ∧
    (0 : ℚ) ≤ c ∧ c ≤ 1 := by
  obtain ⟨-, -, -, -, -, -, -, -, -, -, -, -, h13⟩ := runGraph_char env req wf st
  rw [h13]
  simp [ha, hf, hg, hl, hq, expectedAgentAnalyses, hc.1, hc.2]

/-- Claim C8, witness: the amended statement at a concrete all-success
environment whose consolidator confidence 41/50 = 0.82 is in range. -/
theorem all_success_witness :
    ((runGraph envAllSuccess (initialState ⟨"AAPL", "1M", none⟩ "wf" "t0")).analysis_result).map
        (fun r => r.agent_analyses.map Prod.fst) =
      some ["finance_guru", "geopolitics_guru", "legal_guru", "quant_dev",
            "financial_analyst"] ∧
    ((runGraph envAllSuccess (initialState ⟨"AAPL", "1M", none⟩ "wf" "t0")).analysis_result).map
        (fun r => r.confidence_score) = some ((41 : ℚ) / 50) := by
  have h := all_success_five_keys_bounded_confidence envAllSuccess
    ⟨"AAPL", "1M", none⟩ "wf" "t0" "fin text" "geo text" "leg text" "qnt text"
    "final text" (4 / 5) (3 / 4) (7 / 10) (9 / 10) (41 / 50)
    ["f1"] ["g1"] ["l1"] ["q1"] ["k1"] 100 110 120 130 140
    (.jobj [("time_frequency", .jstr "1M")]) rfl rfl rfl rfl rfl
    (by norm_num)
  exact ⟨h.2.1, h.2.2.1⟩

/-- Claim C8, counterexample to the claim as stated: a run in which every
stage succeeds but the Consolidator's parsed confidence is 1.5; the final
`confidence_score` is 1.5, violating `confidence_score <= 1`. -/
theorem confidence_not_clamped :
    ((runGraph envHighConfidence (initialState ⟨"AAPL", "1M", none⟩ "wf" "t0")).analysis_result).map
        (fun r => r.confidence_score) = some ((3 : ℚ) / 2) ∧
    ¬((3 : ℚ) / 2 ≤ 1) :=
  ⟨rfl, by norm_num⟩

/-- Claim C2 (amended).  Portfolio allocation validation accepts a
non-empty, duplicate-free list of holdings exactly when the allocation
total lies in the inclusive window 99–101% — not 98–102%.  The same
99–101 window guards the streaming-init endpoint, which validates before
creating any session (so out-of-range totals are rejected before any stage
executes).  Totals of 99, 100.5 and 101 are accepted and 80 and 120
rejected under either window, but e.g. a total of 98 lies inside the
claimed 98–102 window and is rejected by the code. -/
theorem allocation_window_99_101 (stocks : List PortfolioStockData)
    (hne : stocks ≠ [])
    (hnd : (stocks.map (fun x => x.symbol)).Nodup) :
    (validate_portfolio_allocation stocks = .ok () ↔
      (99 ≤ (stocks.map (fun x => x.allocation_percentage)).sum ∧
        (stocks.map (fun x => x.allocation_percentage)).sum ≤ 101)) ∧
    (∀ pd : List HoldingEntry, pd ≠ [] →
      (stream_init_validate pd = .ok () ↔
        (99 ≤ (pd.map (fun h => h.allocation)).sum ∧
          (pd.map (fun h => h.allocation)).sum ≤ 101))) := by
  constructor
  · have h0 : stocks.isEmpty = false := by cases stocks <;> simp_all
    by_cases hw : (99 ≤ (stocks.map (fun x => x.allocation_percentage)).sum ∧
        (stocks.map (fun x => x.allocation_percentage)).sum ≤ 101)
    · simp [validate_portfolio_allocation, h0, hw, List.Nodup.dedup hnd]
    · simp [validate_portfolio_allocation, h0, hw]
  · intro pd hpd
    have h0 : pd.isEmpty = false := by cases pd <;> simp_all
    by_cases hw : (99 ≤ (pd.map (fun h => h.allocation)).sum ∧
        (pd.map (fun h => h.allocation)).sum ≤ 101)
    · simp [stream_init_validate, h0, hw]
    · simp [stream_init_validate, h0, hw]

/-- Claim C2, witness: through the amended window, the singleton portfolios
with totals 99, 100.5 and 101 are accepted. -/
theorem allocation_window_witness :
    validate_portfolio_allocation [⟨"AAPL", 99⟩] = .ok () ∧
    validate_portfolio_allocation [⟨"AAPL", 201 / 2⟩] = .ok () ∧
    validate_portfolio_allocation [⟨"AAPL", 101⟩] = .ok () ∧
    stream_init_validate [⟨"AAPL", 99⟩] = .ok () := by
  have h99 := allocation_window_99_101 [⟨"AAPL", 99⟩] (by simp) (by simp)
  have h100 := allocation_window_99_101 [⟨"AAPL", 201 / 2⟩] (by simp) (by simp)
  have h101 := allocation_window_99_101 [⟨"AAPL", 101⟩] (by simp) (by simp)
  refine ⟨h99.1.mpr (by norm_num), h100.1.mpr (by norm_num),
    h101.1.mpr (by norm_num), (h99.2 [⟨"AAPL", 99⟩] (by simp)).mpr (by norm_num)⟩

/-- Claim C2, counterexample to the claim as stated: the singleton
portfolios with totals 98 and 102 — non-empty, duplicate-free, with totals
inside the claimed 98–102 tolerance window — are rejected by both
validation sites. -/
theorem claimed_98_102_window_rejected :
    exceptAccepts (validate_portfolio_allocation [⟨"AAPL", 98⟩]) = false ∧
    exceptAccepts (validate_portfolio_allocation [⟨"AAPL", 102⟩]) = false ∧
    exceptAccepts (stream_init_validate [⟨"AAPL", 98⟩]) = false ∧
    ((98 : ℚ) ≤ 98 ∧ (98 : ℚ) ≤ 102) ∧ ((98 : ℚ) ≤ 102 ∧ (102 : ℚ) ≤ 102) := by
  refine ⟨?_, ?_, ?_, by norm_num, by norm_num⟩
  · norm_num [validate_portfolio_allocation, exceptAccepts]
  · norm_num [validate_portfolio_allocation, exceptAccepts]
  · norm_num [stream_init_validate, exceptAccepts]

/-- Claim C6.  For every input string and every behaviour of the external
JSON decoder, `_parse_response` returns normally (never propagates an
exception); it tries the fenced ```json block first, else the
first-`\x7b`-to-last-`\x7d` span, else falls back; whenever no JSON value
was obtained, the result is the fallback dict carrying the entire response
as free-form analysis, the fixed default confidence 0.5, and a
single sentinel key-factor label (`unknown_error` when no candidate was
found, `parsing_error` when a candidate failed to decode) — and the
fallback dict (hence the sentinel) appears only in those unparseable
cases. -/
theorem parse_response_total_and_ordered
    (loads : String → Option JsonVal) (s : String) :
    exceptAccepts (parse_response loads s) = true ∧
    (pyContainsSub s "```json" = true →
      parse_response loads s =
        .ok ((loads (fencedCandidate s)).getD (parseFallback s "parsing_error"))) ∧
    (pyContainsSub s "```json" = false →
      (s.toList.contains '\x7b' && s.toList.contains '\x7d') = true →
      parse_response loads s =
        .ok ((loads (braceCandidate s)).getD (parseFallback s "parsing_error"))) ∧
    (pyContainsSub s "```json" = false →
      (s.toList.contains '\x7b' && s.toList.contains '\x7d') = false →
      parse_response loads s = .ok (parseFallback s "unknown_error")) ∧
    (∀ t l : String,
      lookupField (parseFallback t l) "confidence" = some (.jnum (1 / 2)) ∧
      lookupField (parseFallback t l) "key_factors" = some (.jarr [.jstr l]) ∧
      lookupField (parseFallback t l) "analysis" = some (.jstr t)) := by
  refine ⟨?_, ?_, ?_, ?_, ?_⟩
  · simp only [parse_response, parse_response_try, extractJsonCandidate]
    by_cases h1 : pyContainsSub s "```json" = true
    · rw [if_pos h1]
      cases hl : loads (fencedCandidate s) <;> simp [hl, exceptAccepts]
    · rw [if_neg h1]
      by_cases h2 : (s.toList.contains '\x7b' && s.toList.contains '\x7d') = true
      · rw [if_pos h2]
        cases hl : loads (braceCandidate s) <;> simp [hl, exceptAccepts]
      · rw [if_neg h2]
        simp [exceptAccepts]
  · intro h1
    simp only [parse_response, parse_response_try, extractJsonCandidate]
    rw [if_pos h1]
    cases hl : loads (fencedCandidate s) <;> simp [hl]
  · intro h1 h2
    simp only [parse_response, parse_response_try, extractJsonCandidate]
    rw [if_neg (by simp only [h1]; decide), if_pos h2]
    cases hl : loads (braceCandidate s) <;> simp [hl]
  · intro h1 h2
    simp only [parse_response, parse_response_try, extractJsonCandidate]
    rw [if_neg (by simp only [h1]; decide), if_neg (by simp only [h2]; decide)]
  · intro t l
    exact ⟨rfl, rfl, rfl⟩

/-- Claim C6, witness: a response with no fence and no braces falls back
with the `unknown_error` sentinel; a fenced response whose fenced body
fails to decode falls back with the `parsing_error` sentinel. -/
theorem parse_response_witness :
    parse_response (fun _ => none) "no json markers" =
      .ok (parseFallback "no json markers" "unknown_error") ∧
    parse_response (fun _ => none) "```json oops```" =
      .ok (parseFallback "```json oops```" "parsing_error") := by
  have h1 := parse_response_total_and_ordered (fun _ => none) "no json markers"
  have h2 := parse_response_total_and_ordered (fun _ => none) "```json oops```"
  exact ⟨h1.2.2.2.1 (by decide) (by decide), h2.2.1 (by decide)⟩

/-- The event-kind sequence of an exception-free inner analysis stream is
fixed, independent of the portfolio and timeframe. -/
theorem streamFull_kinds (pd : List HoldingEntry) (tf : String) :
    (streamFullEvents pd tf).map StreamEvent.kind = innerSuccessKinds := rfl

/-- Claim C4 (amended).  For a found session the SSE stream emits
`session_start`, `user_message`, `status_update(processing)`, then — one
extra event the claim omits — the inner generator's `system_message`, then
`agent_start` / `agent_thinking` / `agent_complete` once per stage in
pipeline order, then `final_result`, then `session_complete` last.  When
the wrapped analysis generator raises mid-stage, its `except` yields an
`error` event and returns normally, after which the endpoint still emits
`session_complete` — the stream ends without `session_complete` only if the
endpoint's own body raises, not on an inner analysis error. -/
theorem sse_event_order (store : String → Option SessionData) (sid : String)
    (sd : SessionData) (fm om : String) (h : store sid = some sd) :
    ((generate_sse_stream store sid none fm none om).1.map StreamEvent.kind =
      [.kSessionStart, .kUserMessage, .kStatusUpdate] ++ innerSuccessKinds ++
        [.kSessionComplete]) ∧
    (∀ n : ℕ,
      (generate_sse_stream store sid (some n) fm none om).1.map
          StreamEvent.kind =
        [.kSessionStart, .kUserMessage, .kStatusUpdate] ++
          (innerSuccessKinds.take n ++ [.kErrorEvent]) ++ [.kSessionComplete]) := by
  constructor
  · simp [generate_sse_stream, h, stream_portfolio_analysis, streamFull_kinds,
      StreamEvent.kind]
  · intro n
    simp [generate_sse_stream, h, stream_portfolio_analysis, List.map_take,
      streamFull_kinds, StreamEvent.kind]

/-- Claim C4, witness: the amended event ordering at a concrete store and
session, for the exception-free run and for an inner failure after five
events (mid second stage). -/
theorem sse_event_order_witness :
    ((generate_sse_stream storeEx "sess-1" none "m" none "m2").1.map
        StreamEvent.kind =
      [.kSessionStart, .kUserMessage, .kStatusUpdate] ++ innerSuccessKinds ++
        [.kSessionComplete]) ∧
    ((generate_sse_stream storeEx "sess-1" (some 5) "m" none "m2").1.map
        StreamEvent.kind =
      [.kSessionStart, .kUserMessage, .kStatusUpdate] ++
        (innerSuccessKinds.take 5 ++ [.kErrorEvent]) ++ [.kSessionComplete]) := by
  have h := sse_event_order storeEx "sess-1" sdEx "m" "m2" rfl
  exact ⟨h.1, h.2 5⟩

/-- Claim C4, counterexample to the claim as stated: the success-run event
sequence is not the claimed one (an extra `system_message` precedes the
first `agent_start`), and a run whose wrapped generator errors mid-stage
still ends with `session_complete` after the `error` event. -/
theorem sse_order_deviates_from_spec :
    ((generate_sse_stream storeEx "sess-1" none "m" none "m2").1.map
        StreamEvent.kind ≠ claimedSuccessKinds) ∧
    (((generate_sse_stream storeEx "sess-1" none "m" none "m2").1.map
        StreamEvent.kind).getD 3 .kErrorEvent = .kSystemMessage) ∧
    (((generate_sse_stream storeEx "sess-1" (some 5) "boom" none "m2").1.map
        StreamEvent.kind).getLast? = some .kSessionComplete) ∧
    (.kErrorEvent ∈ (generate_sse_stream storeEx "sess-1" (some 5) "boom" none
        "m2").1.map StreamEvent.kind) := by
  refine ⟨by decide, by decide, by decide, by decide⟩

/-- Claim C9 (amended).  The progress stream never invokes the pipeline:
for every input, each `agent_complete` event carries mock template text
from `generate_mock_agent_analysis` and the synthetic constants
`confidence = 0.75 + 0.05 i` and `processing_time_ms = 2000 + 500 i` for
the i-th stage — stand-in values, not any stage's parsed confidence or
measured duration. -/
theorem stream_payloads_are_synthetic (pd : List HoldingEntry) (tf : String) :
    (streamFullEvents pd tf).filterMap agentCompletePayload =
      [((3 : ℚ) / 4, 2000), (4 / 5, 2500), (17 / 20, 3000), (9 / 10, 3500),
       (19 / 20, 4000)] ∧
    (streamFullEvents pd tf).filterMap agentCompleteIdText =
      agentsList.enum.map (fun p =>
        (p.2.id, generate_mock_agent_analysis p.2 (portfolioSymbolLabels pd) tf)) := by
  constructor
  · simp [streamFullEvents, stageStreamEvents, agentsList, agentCompletePayload,
      portfolioSymbolLabels, List.enum, List.enumFrom, Function.comp]
    norm_num
  · rfl

/-- Claim C9, witness: the amended statement at a concrete portfolio. -/
theorem stream_payloads_witness :
    (streamFullEvents [⟨"AAPL", 60⟩, ⟨"MSFT", 40⟩] "1M").filterMap
        agentCompletePayload =
      [((3 : ℚ) / 4, 2000), (4 / 5, 2500), (17 / 20, 3000), (9 / 10, 3500),
       (19 / 20, 4000)] :=
  (stream_payloads_are_synthetic [⟨"AAPL", 60⟩, ⟨"MSFT", 40⟩] "1M").1

/-- Claim C9, counterexample to the claim as stated: two different
portfolios produce identical `agent_complete` confidence/duration payloads,
so the emitted durations cannot be any stage's measured processing time,
and no orchestrator output reaches the stream. -/
theorem stream_payloads_input_independent :
    (streamFullEvents [⟨"AAPL", 60⟩, ⟨"MSFT", 40⟩] "1M").filterMap
        agentCompletePayload =
      (streamFullEvents [⟨"TSLA", 100⟩] "1Y").filterMap agentCompletePayload ∧
    ([(⟨"AAPL", 60⟩ : HoldingEntry), ⟨"MSFT", 40⟩].length ≠
      [(⟨"TSLA", (100 : ℚ)⟩ : HoldingEntry)].length) :=
  ⟨rfl, by decide⟩

/-- Claim C10.  A stream request for a session id not in the streaming
store yields exactly one `error: Session not found` event, with the store
unchanged; a stream that runs to completion deletes its store entry right
after `session_complete`, so streaming the same session id again yields
exactly the single `Session not found` error — each initialized session
streams successfully at most once. -/
theorem session_one_shot (store : String → Option SessionData) (sid : String)
    (sd : SessionData) (fm om : String) :
    (store sid = none →
      generate_sse_stream store sid none fm none om =
        ([.errorEvent "Session not found"], store)) ∧
    (store sid = some sd →
      ((generate_sse_stream store sid none fm none om).2 sid = none ∧
        ((generate_sse_stream store sid none fm none om).1.map
            StreamEvent.kind).getLast? = some .kSessionComplete ∧
        (generate_sse_stream
            ((generate_sse_stream store sid none fm none om).2) sid none fm
            none om).1 = [.errorEvent "Session not found"])) := by
  have key : ∀ (l : List StreamEvent) (e : StreamEvent),
      ((l ++ [e]).map StreamEvent.kind).getLast? = some e.kind := by
    intro l e
    rw [List.map_append]
    simp
  constructor
  · intro h
    simp [generate_sse_stream, h]
  · intro h
    refine ⟨?_, ?_, ?_⟩
    · simp [generate_sse_stream, h]
    · simp only [generate_sse_stream, h]
      exact key _ _
    · simp [generate_sse_stream, h]

/-- Claim C10, witness: at a concrete one-entry store, an unknown session
id yields only the not-found error; after a completed stream of the known
id, its entry is gone and a second stream of the same id yields only the
not-found error. -/
theorem session_one_shot_witness :
    generate_sse_stream storeEx "nope" none "m" none "m2" =
      ([.errorEvent "Session not found"], storeEx) ∧
    (generate_sse_stream storeEx "sess-1" none "m" none "m2").2 "sess-1" =
      none ∧
    (generate_sse_stream
        ((generate_sse_stream storeEx "sess-1" none "m" none "m2").2) "sess-1"
        none "m" none "m2").1 = [.errorEvent "Session not found"] := by
  have h1 := session_one_shot storeEx "nope" sdEx "m" "m2"
  have h2 := session_one_shot storeEx "sess-1" sdEx "m" "m2"
  exact ⟨h1.1 rfl, (h2.2 rfl).1, (h2.2 rfl).2.2⟩
